import Mathlib

/-!
Verification of the `algotrade4j_py` market-data client
(`src/algotrade4j_py/client.py`).

The repository's only component is `MarketDataClient`, with a constructor
(`__init__`) that resolves an API key and a single method `get_candles` that
validates its parameters, issues one HTTP GET and reshapes the JSON array
response into a pandas `DataFrame`.

Shallow embedding choices:
* JSON candle objects are association lists `List (String × ℚ)` (field name to
  numeric value).  JSON numbers are modelled as rationals; the transformation
  never computes with the values, it only moves them around, so this is
  lossless for every claim considered here.
* The environment (`os.getenv`) and the current time
  (`pd.Timestamp.now(tz="UTC").isoformat()`) are passed in explicitly.
* The HTTP layer (`requests.get`) is a function `Request → Response` supplied
  by the caller; `get_candles` returns, besides its result, the list of
  requests it issued, so "no network call on validation failure" and "exactly
  one GET" are expressible.
* Python exceptions become an `Except PyError` result; `ValueError`,
  `KeyError` (raised by pandas column access) and the generic `Exception` of
  the non-200 branch are distinguished.
* The method receives and returns the client state (`api_key`, `api_url`),
  mirroring a Python method's ability to mutate `self`; the translation of the
  source assigns no attribute, so each exit returns the state it received.
-/

/-- A JSON candle object: an association list from field names to numeric
values (a Python `dict` parsed from a JSON object, so keys are unique). -/
abbrev Rec : Type := List (String × ℚ)

/-- The field names of a record, in order. -/
def keys (r : Rec) : List String := r.map Prod.fst

/-- A pandas `Timestamp` (datetime64), identified by its count of nanoseconds
since the Unix epoch. -/
structure Timestamp where
  nanos : Int
deriving DecidableEq, Repr

/-- `pd.to_datetime(q, unit="s")`: interpret a number as seconds since the
Unix epoch.  `q.num * 10^9 / q.den` (floor division, exact for the integral
timestamps the server sends) is the nanosecond count. -/
def to_datetime_unit_s (q : ℚ) : Timestamp :=
  ⟨(q.num * 1000000000).ediv (q.den : Int)⟩

/-- A calendar date-time (UTC), for reading a `Timestamp` back as a civil
date: year, month, day, hour, minute, second. -/
structure CivilDateTime where
  year : Int
  month : Nat
  day : Nat
  hour : Nat
  minute : Nat
  second : Nat
deriving DecidableEq, Repr

/-- Days since 1970-01-01 to civil `(year, month, day)` (proleptic Gregorian
calendar, standard days-from-civil inverse algorithm). -/
def civilFromDays (z0 : Int) : Int × Nat × Nat :=
  let z := z0 + 719468
  let era : Int := z.ediv 146097
  let doe : Nat := (z.emod 146097).toNat
  let yoe : Nat := (doe - doe / 1460 + doe / 36524 - doe / 146096) / 365
  let y : Int := (yoe : Int) + era * 400
  let doy : Nat := doe - (365 * yoe + yoe / 4 - yoe / 100)
  let mp : Nat := (5 * doy + 2) / 153
  let d : Nat := doy - (153 * mp + 2) / 5 + 1
  let m : Nat := if mp < 10 then mp + 3 else mp - 9
  (if m ≤ 2 then y + 1 else y, m, d)

/-- The civil date-time of an epoch-second count. -/
def calendarOfEpochSeconds (n : Int) : CivilDateTime :=
  let days := n.ediv 86400
  let sod := (n.emod 86400).toNat
  let c := civilFromDays days
  ⟨c.1, c.2.1, c.2.2, sod / 3600, (sod % 3600) / 60, sod % 60⟩

/-- The calendar reading of a `Timestamp` (its nanoseconds truncated to whole
seconds). -/
def Timestamp.calendar (t : Timestamp) : CivilDateTime :=
  calendarOfEpochSeconds (t.nanos.ediv 1000000000)

/-- A query-parameter value as placed in the Python `params` dict: the string
parameters and the integer `limit`. -/
inductive PVal where
  | s (v : String)
  | i (v : Int)
deriving DecidableEq, Repr

/-- The HTTP request `requests.get(self.api_url, headers=headers,
params=params)` issues: method, URL, headers, query parameters in dict
insertion order. -/
structure Request where
  method : String
  url : String
  headers : List (String × String)
  params : List (String × PVal)
deriving DecidableEq, Repr

/-- An HTTP response: status code, raw body text (`response.text`), and the
parse of the body as a JSON array of candle objects (`response.json()`),
`none` when the body is not such an array. -/
structure Response where
  status : Nat
  text : String
  jsonArr : Option (List Rec)

/-- The Python exceptions the client can raise. -/
inductive PyError where
  | valueError (msg : String)
  | keyError (ks : List String)
  | exn (msg : String)
  | jsonDecodeError
deriving DecidableEq, Repr

/-- The result table: a pandas `DataFrame` with a datetime index (one entry
per input record, `none` = `NaT`), column labels, and one row of cells per
record (`none` = `NaN`, a field absent from that record). -/
structure DataFrame where
  index : List (Option Timestamp)
  columns : List String
  rows : List (List (Option ℚ))
deriving DecidableEq

/-- `MarketDataClient.SUPPORTED_BROKERS`. -/
def SUPPORTED_BROKERS : List String := ["OANDA"]

/-- `MarketDataClient.SUPPORTED_INSTRUMENTS`. -/
def SUPPORTED_INSTRUMENTS : List String := ["NAS100USD", "EURUSD", "GBPUSD"]

/-- `MarketDataClient.SUPPORTED_PERIODS`. -/
def SUPPORTED_PERIODS : List String := ["M1", "M5", "M15", "M30", "H1", "H4", "D"]

/-- The instance state of a constructed `MarketDataClient`: the two attributes
`__init__` assigns. -/
structure ClientState where
  api_key : String
  api_url : String
deriving DecidableEq, Repr

/-- The default `api_url` of `__init__`. -/
def defaultApiUrl : String := "https://api.algotrade4j.trade/api/v1/marketdata/candles"

/-- Python's `repr` of a list of strings, as an f-string interpolates it:
`['OANDA']`, `['NAS100USD', 'EURUSD', 'GBPUSD']`. -/
def pyListRepr (xs : List String) : String :=
  "[" ++ String.intercalate ", " (xs.map (fun x => "\x27" ++ x ++ "\x27")) ++ "]"

/-- The `ValueError` message of `__init__` when no API key is resolvable. -/
def apiKeyErrMsg : String :=
  "API key must be provided either directly or via the environment variable \x27MARKETDATA_API_KEY\x27."

/-- The `ValueError` message for an unsupported broker. -/
def brokerErrMsg (broker : String) : String :=
  "Broker \x27" ++ broker ++ "\x27 is not supported. Supported brokers: " ++
    pyListRepr SUPPORTED_BROKERS

/-- The `ValueError` message for an unsupported instrument. -/
def instrumentErrMsg (instrument : String) : String :=
  "Instrument \x27" ++ instrument ++ "\x27 is not supported. Supported instruments: " ++
    pyListRepr SUPPORTED_INSTRUMENTS

/-- The `ValueError` message for an unsupported period. -/
def periodErrMsg (period : String) : String :=
  "Period \x27" ++ period ++ "\x27 is not supported. Supported periods: " ++
    pyListRepr SUPPORTED_PERIODS

/-- The `ValueError` message for a missing or non-positive limit. -/
def limitErrMsg : String := "Limit must be a positive integer."

/-- The `ValueError` message for a missing start date. -/
def fromDateErrMsg : String := "From date must be provided."

/-- Python's `a or b` on an optional string: `a` when it is truthy (present
and non-empty), else `b`. -/
def truthyOr (a b : Option String) : Option String :=
  match a with
  | some v => if v = "" then b else some v
  | none => b

/-- `MarketDataClient.__init__(api_key, api_url)`, with the environment's
`MARKETDATA_API_KEY` value passed explicitly (`none` = unset):
`self.api_key = api_key or os.getenv("MARKETDATA_API_KEY")`, then
`if not self.api_key: raise ValueError(...)`. -/
def clientInit (api_key : Option String) (api_url : String) (envKey : Option String) :
    Except PyError ClientState :=
  match truthyOr api_key envKey with
  | none => .error (.valueError apiKeyErrMsg)
  | some v => if v = "" then .error (.valueError apiKeyErrMsg) else .ok ⟨v, api_url⟩

/-- `if limit == None or limit <= 0` (short-circuit: `<= 0` is only evaluated
when `limit` is not `None`). -/
def limitInvalid : Option Int → Bool
  | none => true
  | some l => l ≤ 0

/-- Append a key to the accumulated column list if it is new: how
`pd.DataFrame(list_of_dicts)` unions the dict keys, keeping first-appearance
order. -/
def insertNew (acc : List String) (k : String) : List String :=
  if k ∈ acc then acc else acc ++ [k]

/-- Fold one record's keys into the accumulated column list. -/
def addKeys (acc : List String) (r : Rec) : List String :=
  r.foldl (fun a p => insertNew a p.1) acc

/-- The columns of `pd.DataFrame(candles)`: all field names in order of first
appearance across the records. -/
def dfColumns (recs : List Rec) : List String :=
  recs.foldl addKeys []

/-- The column renaming of
`df.rename(columns={"open": "Open", "high": "High", "low": "Low",
"close": "Close", "volume": "Volume"})`. -/
def renameMap (c : String) : String :=
  if c = "open" then "Open"
  else if c = "high" then "High"
  else if c = "low" then "Low"
  else if c = "close" then "Close"
  else if c = "volume" then "Volume"
  else c

/-- The column selection list of `df[["Open", "High", "Low", "Close",
"Volume"]]`. -/
def targetCols : List String := ["Open", "High", "Low", "Close", "Volume"]

/-- The (post-`set_index`, pre-`rename`) columns whose renamed label is `l`,
in column order: the columns pandas label-selection picks for the requested
label `l` (all occurrences, since renaming may have produced duplicate
labels). -/
def selectOrig (cols1 : List String) (l : String) : List String :=
  cols1.filter (fun c => renameMap c = l)

/-- The transformation of the `response.status_code == 200` branch:
`df = pd.DataFrame(candles)`;
`df["openTime"] = pd.to_datetime(df["openTime"], unit="s")` (KeyError when the
column does not exist, e.g. for an empty array);
`df.set_index("openTime", inplace=True)`;
`df.rename(columns=..., inplace=True)`;
`df = df[["Open", "High", "Low", "Close", "Volume"]]` (KeyError naming the
requested labels that match no column). -/
def processBody (candles : List Rec) : Except PyError DataFrame :=
  let cols := dfColumns candles
  if "openTime" ∈ cols then
    let cols1 := cols.filter (fun c => c ≠ "openTime")
    let missing := targetCols.filter (fun l => (selectOrig cols1 l).isEmpty)
    if missing.isEmpty then
      let origSel := targetCols.flatMap (selectOrig cols1)
      .ok { index := candles.map (fun r => (r.lookup "openTime").map to_datetime_unit_s),
            columns := origSel.map renameMap,
            rows := candles.map (fun r => origSel.map (fun c => r.lookup c)) }
    else
      .error (.keyError missing)
  else
    .error (.keyError ["openTime"])

/-- The `params` dict of `get_candles`, in insertion order. -/
def buildParams (instrument broker from_v to_v period : String) (l : Int) :
    List (String × PVal) :=
  [("instrument", .s instrument), ("broker", .s broker), ("from", .s from_v),
   ("to", .s to_v), ("period", .s period), ("limit", .i l)]

/-- The request `get_candles` sends once validation passed. -/
def mkRequest (s : ClientState) (instrument broker from_v to_v period : String) (l : Int) :
    Request :=
  ⟨"GET", s.api_url, [("X-API-Key", s.api_key)], buildParams instrument broker from_v to_v period l⟩

/-- The handling of the response: the 200 branch parses and transforms the
body, any other status raises `Exception(f"Error: {status_code} - {text}")`. -/
def handleResponse (resp : Response) : Except PyError DataFrame :=
  if resp.status = 200 then
    match resp.jsonArr with
    | some candles => processBody candles
    | none => .error .jsonDecodeError
  else
    .error (.exn ("Error: " ++ Nat.repr resp.status ++ " - " ++ resp.text))

/-- `MarketDataClient.get_candles(instrument, broker, from_date, period,
limit, to_date=None)`.  `now_iso_utc` is the value of
`pd.Timestamp.now(tz="UTC").isoformat()`; `http` is the transport
(`requests.get`).  Returns the state of `self` on exit, the list of HTTP
requests issued during the call, and the result (`DataFrame` or raised
exception).  The body mirrors the source line by line: the four validation
checks in order, the `to_date` default, the params/headers dicts, the single
GET, then the status branch. -/
def get_candles (self : ClientState) (instrument broker : String)
    (from_date : Option String) (period : String) (limit : Option Int)
    (to_date : Option String) (now_iso_utc : String) (http : Request → Response) :
    ClientState × List Request × Except PyError DataFrame :=
  if broker ∉ SUPPORTED_BROKERS then
    (self, [], .error (.valueError (brokerErrMsg broker)))
  else if instrument ∉ SUPPORTED_INSTRUMENTS then
    (self, [], .error (.valueError (instrumentErrMsg instrument)))
  else if period ∉ SUPPORTED_PERIODS then
    (self, [], .error (.valueError (periodErrMsg period)))
  else
    match limit with
    | none => (self, [], .error (.valueError limitErrMsg))
    | some l =>
      if l ≤ 0 then
        (self, [], .error (.valueError limitErrMsg))
      else
        match from_date with
        | none => (self, [], .error (.valueError fromDateErrMsg))
        | some from_v =>
          let to_v := to_date.getD now_iso_utc
          let req := mkRequest self instrument broker from_v to_v period l
          let resp := http req
          (self, [req], handleResponse resp)

/-! ## Helper lemmas about the column construction -/

/-- The six field names of a well-formed candle object. -/
def candleKeys : List String := ["openTime", "open", "high", "low", "close", "volume"]

/-- The five lower-case value columns, in the order the selection picks them. -/
def lowerCols : List String := ["open", "high", "low", "close", "volume"]

theorem mem_insertNew {acc : List String} {k a : String} :
    a ∈ insertNew acc k ↔ a ∈ acc ∨ a = k := by
  unfold insertNew
  split
  · constructor
    · exact Or.inl
    · rintro (h | rfl) <;> assumption
  · simp

theorem nodup_insertNew {acc : List String} {k : String} (h : acc.Nodup) :
    (insertNew acc k).Nodup := by
  unfold insertNew
  split
  · exact h
  · simp_all [List.nodup_append]

theorem mem_addKeys {r : Rec} {acc : List String} {a : String} :
    a ∈ addKeys acc r ↔ a ∈ acc ∨ a ∈ keys r := by
  induction r generalizing acc with
  | nil => simp [addKeys, keys]
  | cons p t ih =>
    show a ∈ addKeys (insertNew acc p.1) t ↔ _
    rw [ih, mem_insertNew]
    simp [keys]
    tauto

theorem nodup_addKeys {r : Rec} {acc : List String} (h : acc.Nodup) :
    (addKeys acc r).Nodup := by
  induction r generalizing acc with
  | nil => exact h
  | cons p t ih => exact ih (nodup_insertNew h)

theorem mem_foldl_addKeys {recs : List Rec} {acc : List String} {a : String} :
    a ∈ recs.foldl addKeys acc ↔ a ∈ acc ∨ ∃ r ∈ recs, a ∈ keys r := by
  induction recs generalizing acc with
  | nil => simp
  | cons r t ih =>
    rw [List.foldl_cons, ih, mem_addKeys]
    simp only [List.mem_cons]
    constructor
    · rintro ((h | h) | ⟨r', hr', h⟩)
      · exact Or.inl h
      · exact Or.inr ⟨r, Or.inl rfl, h⟩
      · exact Or.inr ⟨r', Or.inr hr', h⟩
    · rintro (h | ⟨r', (rfl | hr'), h⟩)
      · exact Or.inl (Or.inl h)
      · exact Or.inl (Or.inr h)
      · exact Or.inr ⟨r', hr', h⟩

theorem mem_dfColumns {recs : List Rec} {a : String} :
    a ∈ dfColumns recs ↔ ∃ r ∈ recs, a ∈ keys r := by
  rw [dfColumns, mem_foldl_addKeys]
  simp

theorem nodup_dfColumns {recs : List Rec} : (dfColumns recs).Nodup := by
  rw [dfColumns]
  generalize h0 : ([] : List String) = acc
  have hacc : acc.Nodup := h0 ▸ List.nodup_nil
  clear h0
  induction recs generalizing acc with
  | nil => exact hacc
  | cons r t ih => exact ih _ (nodup_addKeys hacc)

theorem filter_eq_singleton_of_nodup {l : List String} {p : String → Bool} {x : String}
    (hnd : l.Nodup) (hx : x ∈ l) (hpx : p x = true)
    (huniq : ∀ a ∈ l, p a = true → a = x) :
    l.filter p = [x] := by
  have h1 : (l.filter p).Nodup := hnd.filter p
  have h2 : ∀ a, a ∈ l.filter p ↔ a ∈ [x] := by
    intro a
    simp only [List.mem_filter, List.mem_singleton]
    constructor
    · rintro ⟨ha, hpa⟩
      exact huniq a ha hpa
    · rintro rfl
      exact ⟨hx, hpx⟩
  exact List.perm_singleton.mp ((List.perm_ext_iff_of_nodup h1 (List.nodup_singleton x)).mpr h2)

/-- `renameMap` is either the identity or one of the five listed renamings. -/
theorem renameMap_cases (a : String) :
    renameMap a = a ∨
      (a, renameMap a) ∈ [("open", "Open"), ("high", "High"), ("low", "Low"),
        ("close", "Close"), ("volume", "Volume")] := by
  unfold renameMap
  split
  · subst a; simp
  · split
    · subst a; simp
    · split
      · subst a; simp
      · split
        · subst a; simp
        · split
          · subst a; simp
          · exact Or.inl rfl

/-! ## Master lemmas about the pipeline -/

theorem get_candles_broker_invalid {s : ClientState} {instrument broker : String}
    {from_date : Option String} {period : String} {limit : Option Int}
    {to_date : Option String} {now : String} {http : Request → Response}
    (hb : broker ∉ SUPPORTED_BROKERS) :
    get_candles s instrument broker from_date period limit to_date now http =
      (s, [], .error (.valueError (brokerErrMsg broker))) := by
  unfold get_candles
  rw [if_pos hb]

theorem get_candles_instrument_invalid {s : ClientState} {instrument broker : String}
    {from_date : Option String} {period : String} {limit : Option Int}
    {to_date : Option String} {now : String} {http : Request → Response}
    (hb : broker ∈ SUPPORTED_BROKERS) (hi : instrument ∉ SUPPORTED_INSTRUMENTS) :
    get_candles s instrument broker from_date period limit to_date now http =
      (s, [], .error (.valueError (instrumentErrMsg instrument))) := by
  unfold get_candles
  rw [if_neg (not_not_intro hb), if_pos hi]

theorem get_candles_period_invalid {s : ClientState} {instrument broker : String}
    {from_date : Option String} {period : String} {limit : Option Int}
    {to_date : Option String} {now : String} {http : Request → Response}
    (hb : broker ∈ SUPPORTED_BROKERS) (hi : instrument ∈ SUPPORTED_INSTRUMENTS)
    (hp : period ∉ SUPPORTED_PERIODS) :
    get_candles s instrument broker from_date period limit to_date now http =
      (s, [], .error (.valueError (periodErrMsg period))) := by
  unfold get_candles
  rw [if_neg (not_not_intro hb), if_neg (not_not_intro hi), if_pos hp]

theorem get_candles_limit_invalid {s : ClientState} {instrument broker : String}
    {from_date : Option String} {period : String} {limit : Option Int}
    {to_date : Option String} {now : String} {http : Request → Response}
    (hb : broker ∈ SUPPORTED_BROKERS) (hi : instrument ∈ SUPPORTED_INSTRUMENTS)
    (hp : period ∈ SUPPORTED_PERIODS) (hl : limitInvalid limit = true) :
    get_candles s instrument broker from_date period limit to_date now http =
      (s, [], .error (.valueError limitErrMsg)) := by
  unfold get_candles
  rw [if_neg (not_not_intro hb), if_neg (not_not_intro hi), if_neg (not_not_intro hp)]
  match limit, hl with
  | none, _ => rfl
  | some l, hl =>
    have : l ≤ 0 := by simpa [limitInvalid] using hl
    simp only [if_pos this]

theorem get_candles_from_missing {s : ClientState} {instrument broker : String}
    {period : String} {l : Int} {to_date : Option String} {now : String}
    {http : Request → Response}
    (hb : broker ∈ SUPPORTED_BROKERS) (hi : instrument ∈ SUPPORTED_INSTRUMENTS)
    (hp : period ∈ SUPPORTED_PERIODS) (hl : 0 < l) :
    get_candles s instrument broker none period (some l) to_date now http =
      (s, [], .error (.valueError fromDateErrMsg)) := by
  unfold get_candles
  rw [if_neg (not_not_intro hb), if_neg (not_not_intro hi), if_neg (not_not_intro hp)]
  simp only [if_neg (by omega : ¬ l ≤ 0)]

theorem get_candles_valid {s : ClientState} {instrument broker : String}
    {from_v : String} {period : String} {l : Int} {to_date : Option String}
    {now : String} {http : Request → Response}
    (hb : broker ∈ SUPPORTED_BROKERS) (hi : instrument ∈ SUPPORTED_INSTRUMENTS)
    (hp : period ∈ SUPPORTED_PERIODS) (hl : 0 < l) :
    get_candles s instrument broker (some from_v) period (some l) to_date now http =
      (s, [mkRequest s instrument broker from_v (to_date.getD now) period l],
       handleResponse (http (mkRequest s instrument broker from_v (to_date.getD now) period l))) := by
  unfold get_candles
  rw [if_neg (not_not_intro hb), if_neg (not_not_intro hi), if_neg (not_not_intro hp)]
  simp only [if_neg (by omega : ¬ l ≤ 0)]

/-- The five renamings, as (original, renamed) pairs. -/
def renamePairs : List (String × String) :=
  [("open", "Open"), ("high", "High"), ("low", "Low"), ("close", "Close"), ("volume", "Volume")]

theorem renamePairs_facts {c l : String} (h : (c, l) ∈ renamePairs) :
    renameMap c = l ∧ c ∈ candleKeys ∧ c ≠ "openTime" ∧ l ∈ targetCols := by
  simp only [renamePairs, List.mem_cons, List.not_mem_nil, or_false, Prod.mk.injEq] at h
  rcases h with ⟨rfl, rfl⟩ | ⟨rfl, rfl⟩ | ⟨rfl, rfl⟩ | ⟨rfl, rfl⟩ | ⟨rfl, rfl⟩ <;> decide

theorem renamePairs_right_inj {c c' l : String}
    (h1 : (c, l) ∈ renamePairs) (h2 : (c', l) ∈ renamePairs) : c = c' := by
  simp only [renamePairs, List.mem_cons, List.not_mem_nil, or_false, Prod.mk.injEq] at h1 h2
  rcases h1 with ⟨rfl, rfl⟩ | ⟨rfl, rfl⟩ | ⟨rfl, rfl⟩ | ⟨rfl, rfl⟩ | ⟨rfl, rfl⟩ <;>
    rcases h2 with ⟨rfl, h2b⟩ | ⟨rfl, h2b⟩ | ⟨rfl, h2b⟩ | ⟨rfl, h2b⟩ | ⟨rfl, h2b⟩ <;> simp_all

/-- A column not named like one of the five output columns that renames onto a
target label must be the matching lower-case column. -/
theorem renameMap_eq_target {a l : String} (hl : l ∈ targetCols)
    (hna : a ∉ targetCols) (h : renameMap a = l) : (a, l) ∈ renamePairs := by
  rcases renameMap_cases a with hid | hpair
  · rw [hid] at h
    subst h
    exact absurd hl hna
  · rw [h] at hpair
    exact hpair

/-- Success characterization of the transformation: for a nonempty record list
in which every record carries the six candle fields and no record has a field
named like one of the five output columns, the result table is: index = the
converted `openTime` of each record, columns = exactly
`[Open, High, Low, Close, Volume]`, rows = the five lower-case fields of each
record in that order. -/
theorem processBody_ok {recs : List Rec}
    (hne : recs ≠ [])
    (hsub : ∀ r ∈ recs, ∀ k ∈ candleKeys, k ∈ keys r)
    (hdisj : ∀ r ∈ recs, ∀ k ∈ keys r, k ∉ targetCols) :
    processBody recs =
      .ok ⟨recs.map (fun r => (r.lookup "openTime").map to_datetime_unit_s),
           targetCols,
           recs.map (fun r => lowerCols.map (fun c => r.lookup c))⟩ := by
  obtain ⟨r₀, hr₀⟩ : ∃ r, r ∈ recs := by
    cases recs with
    | nil => simp at hne
    | cons a t => exact ⟨a, List.mem_cons_self a t⟩
  have hmemcols : ∀ k ∈ candleKeys, k ∈ dfColumns recs := fun k hk =>
    mem_dfColumns.mpr ⟨r₀, hr₀, hsub r₀ hr₀ k hk⟩
  have hOT : "openTime" ∈ dfColumns recs := hmemcols _ (by decide)
  have hnotTarget : ∀ a ∈ dfColumns recs, a ∉ targetCols := by
    intro a ha
    obtain ⟨r, hr, hk⟩ := mem_dfColumns.mp ha
    exact hdisj r hr a hk
  simp only [processBody]
  rw [if_pos hOT]
  set cols1 := (dfColumns recs).filter (fun c => c ≠ "openTime") with hcols1
  have hnd1 : cols1.Nodup := nodup_dfColumns.filter _
  have hsel : ∀ {c l : String}, (c, l) ∈ renamePairs → selectOrig cols1 l = [c] := by
    intro c l hcl
    obtain ⟨hrn, hck, hcot, hlt⟩ := renamePairs_facts hcl
    apply filter_eq_singleton_of_nodup hnd1
    · rw [hcols1, List.mem_filter]
      exact ⟨hmemcols c hck, by simp [hcot]⟩
    · simp [hrn]
    · intro a ha hpa
      have hpa' : renameMap a = l := by simpa using hpa
      have hna : a ∉ targetCols := hnotTarget a (List.mem_of_mem_filter ha)
      exact renamePairs_right_inj (renameMap_eq_target hlt hna hpa') hcl
  have h1 : selectOrig cols1 "Open" = ["open"] := hsel (by decide)
  have h2 : selectOrig cols1 "High" = ["high"] := hsel (by decide)
  have h3 : selectOrig cols1 "Low" = ["low"] := hsel (by decide)
  have h4 : selectOrig cols1 "Close" = ["close"] := hsel (by decide)
  have h5 : selectOrig cols1 "Volume" = ["volume"] := hsel (by decide)
  have hmiss : targetCols.filter (fun l => (selectOrig cols1 l).isEmpty) = [] := by
    simp only [targetCols, List.filter, h1, h2, h3, h4, h5, List.isEmpty_cons]
  have horig : targetCols.flatMap (selectOrig cols1) = lowerCols := by
    simp only [targetCols, List.flatMap_cons, List.flatMap_nil, h1, h2, h3, h4, h5,
      List.append_nil, lowerCols]
    rfl
  rw [hmiss]
  simp only [List.isEmpty_nil, if_true, horig]
  rfl

/-- When no record has an `openTime` field (in particular for an empty record
list), the transformation raises `KeyError`. -/
theorem processBody_noOpenTime {recs : List Rec}
    (h : ∀ r ∈ recs, "openTime" ∉ keys r) :
    processBody recs = .error (.keyError ["openTime"]) := by
  have hno : "openTime" ∉ dfColumns recs := by
    rw [mem_dfColumns]
    rintro ⟨r, hr, hk⟩
    exact h r hr hk
  simp only [processBody]
  rw [if_neg hno]

/-- A component of a string concatenation occurs in the concatenation (as a
character-list infix). -/
theorem infix_data_of_eq (x pre post msg : String) (h : msg = pre ++ x ++ post) :
    x.data <:+: msg.data :=
  ⟨pre.data, post.data, by rw [h]; simp [String.data_append]⟩

theorem candleKeys_not_target {k : String} (h : k ∈ candleKeys) : k ∉ targetCols := by
  fin_cases h <;> decide

/-! ## Claims -/

/-- C10: an explicitly supplied empty-string API key is treated as absent:
`MarketDataClient(api_key="")` falls back to the `MARKETDATA_API_KEY`
environment variable, and if that is also unset or empty, construction raises
the configuration error rather than storing the empty key. -/
theorem C10_empty_key_falls_back (url : String) :
    (∀ v : String, v ≠ "" → clientInit (some "") url (some v) = .ok ⟨v, url⟩) ∧
    clientInit (some "") url none = .error (.valueError apiKeyErrMsg) ∧
    clientInit (some "") url (some "") = .error (.valueError apiKeyErrMsg) := by
  refine ⟨fun v hv => ?_, rfl, rfl⟩
  simp [clientInit, truthyOr, hv]

/-- Witness for C10 at a concrete environment value. -/
theorem C10_witness :
    clientInit (some "") defaultApiUrl (some "envkey") = .ok ⟨"envkey", defaultApiUrl⟩ ∧
    clientInit (some "") defaultApiUrl none = .error (.valueError apiKeyErrMsg) := by
  exact ⟨(C10_empty_key_falls_back defaultApiUrl).1 "envkey" (by decide),
    (C10_empty_key_falls_back defaultApiUrl).2.1⟩

/-- C4: construction resolves the API key from the explicit argument first,
else from the `MARKETDATA_API_KEY` environment variable, and raises the
configuration error if and only if neither source yields a non-empty value;
with the environment variable set (non-empty) and no explicit key, the stored
key equals the environment value. -/
theorem C4_key_resolution (k env : Option String) (url : String) :
    (clientInit k url env = .error (.valueError apiKeyErrMsg) ↔
      ((k = none ∨ k = some "") ∧ (env = none ∨ env = some ""))) ∧
    (∀ v : String, v ≠ "" → clientInit none url (some v) = .ok ⟨v, url⟩) ∧
    (∀ x : String, x ≠ "" → k = some x → clientInit k url env = .ok ⟨x, url⟩) := by
  refine ⟨?_, fun v hv => by simp [clientInit, truthyOr, hv], fun x hx hk => by
    subst hk; simp [clientInit, truthyOr, hx]⟩
  cases k with
  | none =>
    cases env with
    | none => simp [clientInit, truthyOr]
    | some w => by_cases hw : w = "" <;> simp [clientInit, truthyOr, hw]
  | some v =>
    by_cases hv : v = ""
    · subst hv
      cases env with
      | none => simp [clientInit, truthyOr]
      | some w => by_cases hw : w = "" <;> simp [clientInit, truthyOr, hw]
    · simp [clientInit, truthyOr, hv]

/-- Witness for C4: environment variable set, no explicit key: success with
the environment value; neither source: the configuration error. -/
theorem C4_witness :
    clientInit none defaultApiUrl (some "secret") = .ok ⟨"secret", defaultApiUrl⟩ ∧
    clientInit none defaultApiUrl none = .error (.valueError apiKeyErrMsg) := by
  exact ⟨(C4_key_resolution none (some "secret") defaultApiUrl).2.1 "secret" (by decide),
    (C4_key_resolution none none defaultApiUrl).1.mpr ⟨Or.inl rfl, Or.inl rfl⟩⟩

/-- C8: `get_candles` never mutates the client's state: on every exit (table
or error) the state (`api_key`, `api_url`) is the one received, and a later
call behaves exactly as a call on the original state (nothing is cached or
retained across calls). -/
theorem C8_no_mutation (s : ClientState) (instrument broker : String)
    (from_date : Option String) (period : String) (limit : Option Int)
    (to_date : Option String) (now : String) (http : Request → Response) :
    (get_candles s instrument broker from_date period limit to_date now http).1 = s ∧
    ((get_candles s instrument broker from_date period limit to_date now http).1).api_key =
      s.api_key ∧
    ((get_candles s instrument broker from_date period limit to_date now http).1).api_url =
      s.api_url ∧
    (∀ (instrument2 broker2 : String) (from2 : Option String) (period2 : String)
        (limit2 : Option Int) (to2 : Option String) (now2 : String) (http2 : Request → Response),
      get_candles (get_candles s instrument broker from_date period limit to_date now http).1
          instrument2 broker2 from2 period2 limit2 to2 now2 http2 =
        get_candles s instrument2 broker2 from2 period2 limit2 to2 now2 http2) := by
  have h : (get_candles s instrument broker from_date period limit to_date now http).1 = s := by
    unfold get_candles
    repeat' split
    all_goals rfl
  refine ⟨h, by rw [h], by rw [h], ?_⟩
  intro instrument2 broker2 from2 period2 limit2 to2 now2 http2
  rw [h]

/-- C9: a 200 response whose body is an empty JSON array, or an array of
objects none of which has an `openTime` field, makes `get_candles` raise a
`KeyError` in the transformation step (the success path unconditionally
indexes the `openTime` column) instead of returning an empty table. -/
theorem C9_empty_or_missing_openTime {s : ClientState} {instrument broker : String}
    {from_v period : String} {l : Int} {to_date : Option String} {now txt : String}
    {candles : List Rec}
    (hb : broker ∈ SUPPORTED_BROKERS) (hi : instrument ∈ SUPPORTED_INSTRUMENTS)
    (hp : period ∈ SUPPORTED_PERIODS) (hl : 0 < l)
    (hot : ∀ r ∈ candles, "openTime" ∉ keys r) :
    (get_candles s instrument broker (some from_v) period (some l) to_date now
        (fun _ => ⟨200, txt, some candles⟩)).2.2 = .error (.keyError ["openTime"]) := by
  rw [get_candles_valid hb hi hp hl]
  exact processBody_noOpenTime hot

/-- Witness for C9: the empty array and a one-record body without `openTime`
both produce the `KeyError`, not a table. -/
theorem C9_witness :
    (get_candles ⟨"key", defaultApiUrl⟩ "EURUSD" "OANDA" (some "2020-10-01T00:00:00Z") "M1"
        (some 100) none "2024-10-10T00:00:00+00:00"
        (fun _ => ⟨200, "[]", some []⟩)).2.2 = .error (.keyError ["openTime"]) ∧
    (get_candles ⟨"key", defaultApiUrl⟩ "EURUSD" "OANDA" (some "2020-10-01T00:00:00Z") "M1"
        (some 100) none "2024-10-10T00:00:00+00:00"
        (fun _ => ⟨200, "body", some [[("open", (1 : ℚ)), ("high", 2), ("low", 3),
          ("close", 4), ("volume", 1000)]]⟩)).2.2 = .error (.keyError ["openTime"]) := by
  constructor
  · exact C9_empty_or_missing_openTime (by decide) (by decide) (by decide) (by decide)
      (by intro r hr; simp at hr)
  · refine C9_empty_or_missing_openTime (by decide) (by decide) (by decide) (by decide) ?_
    intro r hr
    rw [List.mem_singleton] at hr
    subst hr
    decide

/-- C3: any non-200 response makes `get_candles` raise a generic error whose
message embeds the numeric status code and the raw response body text
verbatim; exactly one request was issued (no retry) and no partial result is
produced. -/
theorem C3_non200 {s : ClientState} {instrument broker : String} {from_v period : String}
    {l : Int} {to_date : Option String} {now : String} {resp : Response}
    (hb : broker ∈ SUPPORTED_BROKERS) (hi : instrument ∈ SUPPORTED_INSTRUMENTS)
    (hp : period ∈ SUPPORTED_PERIODS) (hl : 0 < l) (hst : resp.status ≠ 200) :
    (get_candles s instrument broker (some from_v) period (some l) to_date now
        (fun _ => resp)).2.2 =
      .error (.exn ("Error: " ++ Nat.repr resp.status ++ " - " ++ resp.text)) ∧
    (Nat.repr resp.status).data <:+:
      ("Error: " ++ Nat.repr resp.status ++ " - " ++ resp.text).data ∧
    resp.text.data <:+: ("Error: " ++ Nat.repr resp.status ++ " - " ++ resp.text).data ∧
    (get_candles s instrument broker (some from_v) period (some l) to_date now
        (fun _ => resp)).2.1.length = 1 := by
  rw [get_candles_valid hb hi hp hl]
  refine ⟨?_, ?_, ?_, rfl⟩
  · show handleResponse resp = _
    rw [handleResponse, if_neg hst]
  · exact infix_data_of_eq (Nat.repr resp.status) "Error: " (" - " ++ resp.text) _
      (by simp [String.append_assoc])
  · exact infix_data_of_eq resp.text ("Error: " ++ Nat.repr resp.status ++ " - ") "" _
      (by simp [String.append_assoc])

/-- Witness for C3 at status 403 with body `"forbidden"`: the message is
`Error: 403 - forbidden`, containing both `403` and `forbidden`. -/
theorem C3_witness :
    (get_candles ⟨"key", defaultApiUrl⟩ "EURUSD" "OANDA" (some "2020-10-01T00:00:00Z") "M1"
        (some 100) none "2024-10-10T00:00:00+00:00"
        (fun _ => ⟨403, "forbidden", none⟩)).2.2 =
      .error (.exn "Error: 403 - forbidden") ∧
    "403".data <:+: "Error: 403 - forbidden".data ∧
    "forbidden".data <:+: "Error: 403 - forbidden".data := by
  have h := @C3_non200 ⟨"key", defaultApiUrl⟩ "EURUSD" "OANDA" "2020-10-01T00:00:00Z" "M1"
    100 none "2024-10-10T00:00:00+00:00" ⟨403, "forbidden", none⟩
    (by decide) (by decide) (by decide) (by decide) (by decide)
  refine ⟨?_, by decide, by decide⟩
  rw [h.1]
  rfl

/-- C5: `limit` must be a positive integer: a non-positive or `None` limit
raises the validation error before any request is issued, and a positive limit
is forwarded unchanged as the `limit` query parameter of the single GET. -/
theorem C5_limit_validation (s : ClientState) (instrument broker from_v period : String)
    (to_date : Option String) (now : String) (http : Request → Response)
    (hb : broker ∈ SUPPORTED_BROKERS) (hi : instrument ∈ SUPPORTED_INSTRUMENTS)
    (hp : period ∈ SUPPORTED_PERIODS) :
    (∀ l : Int, l ≤ 0 →
      get_candles s instrument broker (some from_v) period (some l) to_date now http =
        (s, [], .error (.valueError limitErrMsg))) ∧
    (get_candles s instrument broker (some from_v) period none to_date now http =
      (s, [], .error (.valueError limitErrMsg))) ∧
    (∀ l : Int, 0 < l →
      ∃ q : Request,
        (get_candles s instrument broker (some from_v) period (some l) to_date now http).2.1 =
          [q] ∧ ("limit", PVal.i l) ∈ q.params) := by
  refine ⟨fun l hl => ?_, ?_, fun l hl => ?_⟩
  · exact get_candles_limit_invalid hb hi hp (by simp [limitInvalid, hl])
  · exact get_candles_limit_invalid hb hi hp rfl
  · refine ⟨mkRequest s instrument broker from_v (to_date.getD now) period l, ?_, ?_⟩
    · rw [get_candles_valid hb hi hp hl]
    · simp [mkRequest, buildParams]

/-- Witness for C5 at the claim's concrete limits 0, -5, None, and 100. -/
theorem C5_witness :
    (get_candles ⟨"key", defaultApiUrl⟩ "EURUSD" "OANDA" (some "2020-10-01T00:00:00Z") "M1"
        (some 0) none "now" (fun _ => ⟨200, "", some []⟩) =
      (⟨"key", defaultApiUrl⟩, [], .error (.valueError limitErrMsg))) ∧
    (get_candles ⟨"key", defaultApiUrl⟩ "EURUSD" "OANDA" (some "2020-10-01T00:00:00Z") "M1"
        (some (-5)) none "now" (fun _ => ⟨200, "", some []⟩) =
      (⟨"key", defaultApiUrl⟩, [], .error (.valueError limitErrMsg))) ∧
    (get_candles ⟨"key", defaultApiUrl⟩ "EURUSD" "OANDA" (some "2020-10-01T00:00:00Z") "M1"
        none none "now" (fun _ => ⟨200, "", some []⟩) =
      (⟨"key", defaultApiUrl⟩, [], .error (.valueError limitErrMsg))) ∧
    (∃ q : Request,
      (get_candles ⟨"key", defaultApiUrl⟩ "EURUSD" "OANDA" (some "2020-10-01T00:00:00Z") "M1"
          (some 100) none "now" (fun _ => ⟨200, "", some []⟩)).2.1 = [q] ∧
        ("limit", PVal.i 100) ∈ q.params) := by
  have h := C5_limit_validation ⟨"key", defaultApiUrl⟩ "EURUSD" "OANDA" "2020-10-01T00:00:00Z"
    "M1" none "now" (fun _ => ⟨200, "", some []⟩) (by decide) (by decide) (by decide)
  exact ⟨h.1 0 (by decide), h.1 (-5) (by decide), h.2.1, h.2.2 100 (by decide)⟩

/-- C7: a call that passes validation issues exactly one GET to the configured
base URL with the `X-API-Key` header set to the client's key and exactly the
query parameters `instrument`, `broker`, `from`, `to`, `period`, `limit`, in
that order; `to` is the supplied end date when given and the current UTC
ISO-8601 time (`now_iso_utc`) when omitted. -/
theorem C7_single_request (s : ClientState) (instrument broker from_v period : String)
    (l : Int) (to_date : Option String) (now : String) (http : Request → Response)
    (hb : broker ∈ SUPPORTED_BROKERS) (hi : instrument ∈ SUPPORTED_INSTRUMENTS)
    (hp : period ∈ SUPPORTED_PERIODS) (hl : 0 < l) :
    (get_candles s instrument broker (some from_v) period (some l) to_date now http).2.1 =
      [⟨"GET", s.api_url, [("X-API-Key", s.api_key)],
        [("instrument", .s instrument), ("broker", .s broker), ("from", .s from_v),
         ("to", .s (to_date.getD now)), ("period", .s period), ("limit", .i l)]⟩] := by
  rw [get_candles_valid hb hi hp hl]
  rfl

/-- Witness for C7: with `to_date` omitted the `to` parameter is the current
UTC time; with `to_date` supplied it is forwarded unchanged. -/
theorem C7_witness :
    (get_candles ⟨"key", defaultApiUrl⟩ "EURUSD" "OANDA" (some "2020-10-01T00:00:00Z") "M1"
        (some 100) none "2024-10-10T00:00:00+00:00" (fun _ => ⟨200, "", some []⟩)).2.1 =
      [⟨"GET", defaultApiUrl, [("X-API-Key", "key")],
        [("instrument", .s "EURUSD"), ("broker", .s "OANDA"), ("from", .s "2020-10-01T00:00:00Z"),
         ("to", .s "2024-10-10T00:00:00+00:00"), ("period", .s "M1"), ("limit", .i 100)]⟩] ∧
    (get_candles ⟨"key", defaultApiUrl⟩ "EURUSD" "OANDA" (some "2020-10-01T00:00:00Z") "M1"
        (some 100) (some "2023-05-05T00:00:00Z") "2024-10-10T00:00:00+00:00"
        (fun _ => ⟨200, "", some []⟩)).2.1 =
      [⟨"GET", defaultApiUrl, [("X-API-Key", "key")],
        [("instrument", .s "EURUSD"), ("broker", .s "OANDA"), ("from", .s "2020-10-01T00:00:00Z"),
         ("to", .s "2023-05-05T00:00:00Z"), ("period", .s "M1"), ("limit", .i 100)]⟩] := by
  exact ⟨C7_single_request ⟨"key", defaultApiUrl⟩ "EURUSD" "OANDA" "2020-10-01T00:00:00Z" "M1"
      100 none "2024-10-10T00:00:00+00:00" (fun _ => ⟨200, "", some []⟩)
      (by decide) (by decide) (by decide) (by decide),
    C7_single_request ⟨"key", defaultApiUrl⟩ "EURUSD" "OANDA" "2020-10-01T00:00:00Z" "M1"
      100 (some "2023-05-05T00:00:00Z") "2024-10-10T00:00:00+00:00" (fun _ => ⟨200, "", some []⟩)
      (by decide) (by decide) (by decide) (by decide)⟩

/-- C2 (amended): validation is fail-fast in the order broker, instrument,
period, limit, from-date, and no request is issued on any validation failure;
the three allow-list errors identify the offending value and the allowed
list in their message.  (The limit and from-date checks raise the fixed
messages `Limit must be a positive integer.` / `From date must be provided.`,
which do not name the offending value — see the counterexample.) -/
theorem C2_validation_order (s : ClientState) (instrument broker : String)
    (from_date : Option String) (period : String) (limit : Option Int)
    (to_date : Option String) (now : String) (http : Request → Response) :
    (broker ∉ SUPPORTED_BROKERS →
      get_candles s instrument broker from_date period limit to_date now http =
        (s, [], .error (.valueError (brokerErrMsg broker)))) ∧
    (broker ∈ SUPPORTED_BROKERS → instrument ∉ SUPPORTED_INSTRUMENTS →
      get_candles s instrument broker from_date period limit to_date now http =
        (s, [], .error (.valueError (instrumentErrMsg instrument)))) ∧
    (broker ∈ SUPPORTED_BROKERS → instrument ∈ SUPPORTED_INSTRUMENTS →
      period ∉ SUPPORTED_PERIODS →
      get_candles s instrument broker from_date period limit to_date now http =
        (s, [], .error (.valueError (periodErrMsg period)))) ∧
    (broker ∈ SUPPORTED_BROKERS → instrument ∈ SUPPORTED_INSTRUMENTS →
      period ∈ SUPPORTED_PERIODS → limitInvalid limit = true →
      get_candles s instrument broker from_date period limit to_date now http =
        (s, [], .error (.valueError limitErrMsg))) ∧
    (broker ∈ SUPPORTED_BROKERS → instrument ∈ SUPPORTED_INSTRUMENTS →
      period ∈ SUPPORTED_PERIODS → limitInvalid limit = false → from_date = none →
      get_candles s instrument broker from_date period limit to_date now http =
        (s, [], .error (.valueError fromDateErrMsg))) ∧
    broker.data <:+: (brokerErrMsg broker).data ∧
    (pyListRepr SUPPORTED_BROKERS).data <:+: (brokerErrMsg broker).data ∧
    instrument.data <:+: (instrumentErrMsg instrument).data ∧
    (pyListRepr SUPPORTED_INSTRUMENTS).data <:+: (instrumentErrMsg instrument).data ∧
    period.data <:+: (periodErrMsg period).data ∧
    (pyListRepr SUPPORTED_PERIODS).data <:+: (periodErrMsg period).data := by
  refine ⟨fun hb => get_candles_broker_invalid hb,
    fun hb hi => get_candles_instrument_invalid hb hi,
    fun hb hi hp => get_candles_period_invalid hb hi hp,
    fun hb hi hp hl => get_candles_limit_invalid hb hi hp hl,
    fun hb hi hp hl hf => ?_,
    infix_data_of_eq broker "Broker \x27"
      ("\x27 is not supported. Supported brokers: " ++ pyListRepr SUPPORTED_BROKERS) _
      (by simp [brokerErrMsg, String.append_assoc]),
    infix_data_of_eq (pyListRepr SUPPORTED_BROKERS)
      ("Broker \x27" ++ broker ++ "\x27 is not supported. Supported brokers: ") "" _
      (by simp [brokerErrMsg, String.append_assoc]),
    infix_data_of_eq instrument "Instrument \x27"
      ("\x27 is not supported. Supported instruments: " ++ pyListRepr SUPPORTED_INSTRUMENTS) _
      (by simp [instrumentErrMsg, String.append_assoc]),
    infix_data_of_eq (pyListRepr SUPPORTED_INSTRUMENTS)
      ("Instrument \x27" ++ instrument ++ "\x27 is not supported. Supported instruments: ") "" _
      (by simp [instrumentErrMsg, String.append_assoc]),
    infix_data_of_eq period "Period \x27"
      ("\x27 is not supported. Supported periods: " ++ pyListRepr SUPPORTED_PERIODS) _
      (by simp [periodErrMsg, String.append_assoc]),
    infix_data_of_eq (pyListRepr SUPPORTED_PERIODS)
      ("Period \x27" ++ period ++ "\x27 is not supported. Supported periods: ") "" _
      (by simp [periodErrMsg, String.append_assoc])⟩
  subst hf
  cases limit with
  | none => simp [limitInvalid] at hl
  | some l =>
    have hpos : 0 < l := by
      by_contra hc
      rw [limitInvalid, decide_eq_false_iff_not] at hl
      omega
    exact get_candles_from_missing hb hi hp hpos

/-- Counterexample for C2 as stated: with valid broker, instrument and period
and `limit = 0`, the first violated constraint is the limit check, and the
raised validation error has the fixed message
`Limit must be a positive integer.`, which does not contain the offending
value `0` (nor any allowed set), contradicting "the first violated constraint
raises a validation error whose message identifies the offending value and
the allowed set".  (No request is issued, as the claim says.) -/
theorem C2_counterexample :
    get_candles ⟨"key", defaultApiUrl⟩ "EURUSD" "OANDA" (some "2020-10-01T00:00:00Z") "M1"
        (some 0) none "now" (fun _ => ⟨200, "", some []⟩) =
      (⟨"key", defaultApiUrl⟩, [], .error (.valueError "Limit must be a positive integer.")) ∧
    ¬ ("0".data <:+: "Limit must be a positive integer.".data) := by
  exact ⟨rfl, by decide⟩

/-- Witness for C2 at concrete inputs: each validation stage fires first when
the earlier ones pass, with no request issued, and the broker message contains
the offending value and the allowed list. -/
theorem C2_witness :
    (get_candles ⟨"key", defaultApiUrl⟩ "EURUSD" "FOREXCOM" (some "2020-10-01T00:00:00Z") "M1"
        (some 100) none "now" (fun _ => ⟨200, "", some []⟩) =
      (⟨"key", defaultApiUrl⟩, [], .error (.valueError (brokerErrMsg "FOREXCOM")))) ∧
    (get_candles ⟨"key", defaultApiUrl⟩ "SPX500" "OANDA" (some "2020-10-01T00:00:00Z") "M1"
        (some 100) none "now" (fun _ => ⟨200, "", some []⟩) =
      (⟨"key", defaultApiUrl⟩, [], .error (.valueError (instrumentErrMsg "SPX500")))) ∧
    (get_candles ⟨"key", defaultApiUrl⟩ "EURUSD" "OANDA" (some "2020-10-01T00:00:00Z") "M2"
        (some 100) none "now" (fun _ => ⟨200, "", some []⟩) =
      (⟨"key", defaultApiUrl⟩, [], .error (.valueError (periodErrMsg "M2")))) ∧
    (get_candles ⟨"key", defaultApiUrl⟩ "EURUSD" "OANDA" (some "2020-10-01T00:00:00Z") "M1"
        none none "now" (fun _ => ⟨200, "", some []⟩) =
      (⟨"key", defaultApiUrl⟩, [], .error (.valueError limitErrMsg))) ∧
    (get_candles ⟨"key", defaultApiUrl⟩ "EURUSD" "OANDA" none "M1"
        (some 100) none "now" (fun _ => ⟨200, "", some []⟩) =
      (⟨"key", defaultApiUrl⟩, [], .error (.valueError fromDateErrMsg))) ∧
    "FOREXCOM".data <:+: (brokerErrMsg "FOREXCOM").data ∧
    (pyListRepr SUPPORTED_BROKERS).data <:+: (brokerErrMsg "FOREXCOM").data := by
  refine ⟨(C2_validation_order ⟨"key", defaultApiUrl⟩ "EURUSD" "FOREXCOM"
      (some "2020-10-01T00:00:00Z") "M1" (some 100) none "now"
      (fun _ => ⟨200, "", some []⟩)).1 (by decide),
    (C2_validation_order ⟨"key", defaultApiUrl⟩ "SPX500" "OANDA"
      (some "2020-10-01T00:00:00Z") "M1" (some 100) none "now"
      (fun _ => ⟨200, "", some []⟩)).2.1 (by decide) (by decide),
    (C2_validation_order ⟨"key", defaultApiUrl⟩ "EURUSD" "OANDA"
      (some "2020-10-01T00:00:00Z") "M2" (some 100) none "now"
      (fun _ => ⟨200, "", some []⟩)).2.2.1 (by decide) (by decide) (by decide),
    (C2_validation_order ⟨"key", defaultApiUrl⟩ "EURUSD" "OANDA"
      (some "2020-10-01T00:00:00Z") "M1" none none "now"
      (fun _ => ⟨200, "", some []⟩)).2.2.2.1 (by decide) (by decide) (by decide) rfl,
    (C2_validation_order ⟨"key", defaultApiUrl⟩ "EURUSD" "OANDA"
      none "M1" (some 100) none "now"
      (fun _ => ⟨200, "", some []⟩)).2.2.2.2.1 (by decide) (by decide) (by decide)
      (by decide) rfl,
    (C2_validation_order ⟨"key", defaultApiUrl⟩ "EURUSD" "FOREXCOM"
      (some "2020-10-01T00:00:00Z") "M1" (some 100) none "now"
      (fun _ => ⟨200, "", some []⟩)).2.2.2.2.2.1,
    (C2_validation_order ⟨"key", defaultApiUrl⟩ "EURUSD" "FOREXCOM"
      (some "2020-10-01T00:00:00Z") "M1" (some 100) none "now"
      (fun _ => ⟨200, "", some []⟩)).2.2.2.2.2.2.1⟩

/-- C1 (amended): for every 200 response whose body is a nonempty JSON array
of candle objects with exactly the fields `openTime`, `open`, `high`, `low`,
`close`, `volume` (in any order), `get_candles` returns the table whose row
index is the conversion of each record's `openTime` as seconds since epoch,
and whose columns are the renamed fields reordered to exactly
`[Open, High, Low, Close, Volume]` with each row holding the record's
`open, high, low, close, volume` values in that order.  (The amendment adds
"nonempty": see the counterexample for the empty array, on which the claim as
stated fails.) -/
theorem C1_success_table {s : ClientState} {instrument broker : String}
    {from_v period : String} {l : Int} {to_date : Option String} {now txt : String}
    {candles : List Rec}
    (hb : broker ∈ SUPPORTED_BROKERS) (hi : instrument ∈ SUPPORTED_INSTRUMENTS)
    (hp : period ∈ SUPPORTED_PERIODS) (hl : 0 < l)
    (hne : candles ≠ [])
    (hkeys : ∀ r ∈ candles, (keys r).Perm candleKeys) :
    (get_candles s instrument broker (some from_v) period (some l) to_date now
        (fun _ => ⟨200, txt, some candles⟩)).2.2 =
      .ok ⟨candles.map (fun r => (r.lookup "openTime").map to_datetime_unit_s),
           targetCols,
           candles.map (fun r => lowerCols.map (fun c => r.lookup c))⟩ := by
  rw [get_candles_valid hb hi hp hl]
  show processBody candles = _
  apply processBody_ok hne
  · intro r hr k hk
    exact ((hkeys r hr).mem_iff).mpr hk
  · intro r hr k hk
    exact candleKeys_not_target ((hkeys r hr).mem_iff.mp hk)

/-- Counterexample for C1 as stated: the empty array `[]` is (vacuously) a
JSON array of candle objects with the six fields, yet on a 200 response with
that body `get_candles` raises a `KeyError` instead of returning a table. -/
theorem C1_counterexample :
    (get_candles ⟨"key", defaultApiUrl⟩ "EURUSD" "OANDA" (some "2020-10-01T00:00:00Z") "M1"
        (some 100) (some "2024-10-10T00:00:00Z") "now"
        (fun _ => ⟨200, "[]", some []⟩)).2.2 = .error (.keyError ["openTime"]) := rfl

/-- Witness for C1 at the claim's single-candle body
`[{"openTime": 1700000000, "open": 1.0, "high": 1.2, "low": 0.9,
"close": 1.1, "volume": 1000}]`: exactly one row, index equal to the
timestamp of epoch-second 1700000000 (the calendar instant
2023-11-14 22:13:20 UTC), columns exactly `[Open, High, Low, Close, Volume]`
and values `[1.0, 1.2, 0.9, 1.1, 1000]` in that order. -/
theorem C1_witness :
    (get_candles ⟨"key", defaultApiUrl⟩ "EURUSD" "OANDA" (some "2020-10-01T00:00:00Z") "M1"
        (some 100) (some "2024-10-10T00:00:00Z") "now"
        (fun _ => ⟨200, "body", some [[("openTime", (1700000000 : ℚ)), ("open", 1),
          ("high", 12/10), ("low", 9/10), ("close", 11/10), ("volume", 1000)]]⟩)).2.2 =
      .ok ⟨[some (to_datetime_unit_s 1700000000)], ["Open", "High", "Low", "Close", "Volume"],
           [[some 1, some (12/10), some (9/10), some (11/10), some 1000]]⟩ ∧
    (to_datetime_unit_s 1700000000).calendar = ⟨2023, 11, 14, 22, 13, 20⟩ := by
  refine ⟨?_, by decide⟩
  have hne : ([[("openTime", (1700000000 : ℚ)), ("open", 1), ("high", 12/10), ("low", 9/10),
      ("close", 11/10), ("volume", 1000)]] : List Rec) ≠ [] := by simp
  have hkeys : ∀ r ∈ ([[("openTime", (1700000000 : ℚ)), ("open", 1), ("high", 12/10),
      ("low", 9/10), ("close", 11/10), ("volume", 1000)]] : List Rec),
      (keys r).Perm candleKeys := by
    intro r hr
    rw [List.mem_singleton] at hr
    subst hr
    exact List.Perm.refl _
  rw [C1_success_table (by decide) (by decide) (by decide) (by decide) hne hkeys]
  rfl

/-- C6 (amended): every successful fetch whose source records carry the six
candle fields in any order, possibly with extra fields, yields a table with
exactly the five columns `Open, High, Low, Close, Volume` in that order —
provided no source field is itself named like one of those five output
columns.  (Without that proviso the claim fails: a colliding extra field
duplicates a label after renaming and the selection then returns six columns
— see the counterexample.) -/
theorem C6_column_stability {s : ClientState} {instrument broker : String}
    {from_v period : String} {l : Int} {to_date : Option String} {now txt : String}
    {candles : List Rec}
    (hb : broker ∈ SUPPORTED_BROKERS) (hi : instrument ∈ SUPPORTED_INSTRUMENTS)
    (hp : period ∈ SUPPORTED_PERIODS) (hl : 0 < l)
    (hne : candles ≠ [])
    (hsub : ∀ r ∈ candles, ∀ k ∈ candleKeys, k ∈ keys r)
    (hdisj : ∀ r ∈ candles, ∀ k ∈ keys r, k ∉ targetCols) :
    ∃ df : DataFrame,
      (get_candles s instrument broker (some from_v) period (some l) to_date now
          (fun _ => ⟨200, txt, some candles⟩)).2.2 = .ok df ∧
      df.columns = targetCols := by
  refine ⟨⟨candles.map (fun r => (r.lookup "openTime").map to_datetime_unit_s), targetCols,
    candles.map (fun r => lowerCols.map (fun c => r.lookup c))⟩, ?_, rfl⟩
  rw [get_candles_valid hb hi hp hl]
  show processBody candles = _
  exact processBody_ok hne hsub hdisj

/-- Counterexample for C6 as stated: a successful fetch of a record that also
carries an extra field named `Open` (beside its ordinary `open` field)
returns a table with SIX columns, `Open` duplicated, because the renamed
`open` and the extra `Open` both match the selection label. -/
theorem C6_counterexample :
    (get_candles ⟨"key", defaultApiUrl⟩ "EURUSD" "OANDA" (some "2020-10-01T00:00:00Z") "M1"
        (some 100) (some "2024-10-10T00:00:00Z") "now"
        (fun _ => ⟨200, "body", some [[("openTime", (1700000000 : ℚ)), ("open", 1),
          ("high", 2), ("low", 3), ("close", 4), ("volume", 1000), ("Open", 5)]]⟩)).2.2 =
      .ok ⟨[some (to_datetime_unit_s 1700000000)],
           ["Open", "Open", "High", "Low", "Close", "Volume"],
           [[some 1, some 5, some 2, some 3, some 4, some 1000]]⟩ ∧
    (["Open", "Open", "High", "Low", "Close", "Volume"] : List String) ≠ targetCols := by
  exact ⟨rfl, by decide⟩

/-- Witness for C6: a record with scrambled field order and a benign extra
field still yields exactly the five columns in the fixed order. -/
theorem C6_witness :
    ∃ df : DataFrame,
      (get_candles ⟨"key", defaultApiUrl⟩ "EURUSD" "OANDA" (some "2020-10-01T00:00:00Z") "M1"
          (some 100) (some "2024-10-10T00:00:00Z") "now"
          (fun _ => ⟨200, "body", some [[("volume", (1000 : ℚ)), ("close", 4), ("extra", 7),
            ("low", 3), ("high", 2), ("open", 1), ("openTime", 1700000000)]]⟩)).2.2 =
        .ok df ∧
      df.columns = targetCols := by
  refine C6_column_stability (by decide) (by decide) (by decide) (by decide) (by simp) ?_ ?_
  · intro r hr k hk
    rw [List.mem_singleton] at hr
    subst hr
    fin_cases hk <;> decide
  · intro r hr k hk
    rw [List.mem_singleton] at hr
    subst hr
    fin_cases hk <;> decide
